import Mathlib

set_option maxRecDepth 8000
set_option linter.unusedVariables false
set_option linter.unnecessarySeqFocus false

namespace AIbingwa

/-- Trade record persisted in the ledger (spec §3; the fields brain.ts reads are
`t.status`, `t.symbol`, `t.amount`, `t.price`). Statuses are the string
literals "open" | "closed" | "stopped" | "failed" of the source; decimal
amounts are modelled as rationals (the source keeps decimal strings to avoid
float rounding loss). -/
structure Trade where
  symbol : String
  action : String
  amount : ℚ
  price : ℚ
  reason : String
  status : String
  pnl : Option ℚ
  timestamp : Nat
deriving DecidableEq

/-- Trading settings (spec §3; read in brain.ts buildSystemPrompt and written
through the update_trading_settings skill). -/
structure Settings where
  maxMarketCap : ℚ
  maxBuyAmount : ℚ
  takeProfitPct : ℚ
  stopLossPct : ℚ
  scanIntervalMin : ℚ
  maxOpenPositions : Nat
  autoTradeEnabled : Bool
deriving DecidableEq

/-- The AgentMemory / Ledger document (brain.ts uses mem.trades, mem.learnings,
mem.totalTrades, mem.winRate, mem.totalPnl, mem.settings). -/
structure AgentMemory where
  trades : List Trade
  settings : Settings
  learnings : List String
  totalTrades : Nat
  winRate : ℚ
  totalPnl : ℚ
deriving DecidableEq

/-- Per-chat conversation message (brain.ts lines 12-16); the role is one of
the string literals "user" | "assistant" | "system". -/
structure ConversationMessage where
  role : String
  content : String
  timestamp : Nat
deriving DecidableEq

/-- Per-chat user profile (brain.ts lines 18-25). -/
structure UserProfile where
  chatId : String
  name : String
  preferences : List String
  conversationHistory : List ConversationMessage
  lastSeen : Nat
  interactionCount : Nat
deriving DecidableEq

/-- JavaScript `arr.slice(-n)` for n > 0: the most recent n elements
(the whole array when it has fewer than n elements). -/
def sliceLast (n : Nat) (l : List α) : List α := l.drop (l.length - n)

/-- A registered skill as the Brain consumes it. skills.ts is not in the
source snapshot; modelled from the spec Skill Registry surface:
`get(name) -> Skill?`, `Skill.execute(params) -> string`. Execution may throw,
modelled as Except; a JSON.parse failure of the arguments string is folded
into the same error channel because brain.ts catches both in one try block
(lines 168-184). -/
structure Skill where
  execute : String → Except String String

abbrev SkillRegistry := List (String × Skill)

/-- Modelled from the spec: Skill Registry `get(name) -> Skill?` (skills.ts is
not in the source snapshot); name-keyed lookup. -/
def regGet (reg : SkillRegistry) (name : String) : Option Skill :=
  (reg.find? (fun p => p.1 == name)).map (fun p => p.2)

/-- Modelled from the spec: Skill Registry `describeSkills() -> text`
(skills.ts is not in the source snapshot); rendered as the newline-joined
skill names. -/
def describeSkills (reg : SkillRegistry) : String :=
  String.intercalate "\n" (reg.map (fun p => p.1))

/-- The data interpolated into the system prompt built by brain.ts
buildSystemPrompt (lines 51-99). The fixed prose of the template is abstracted
away; the data dependencies (which ledger and profile fields feed the prompt)
are kept exactly as in the source. -/
structure SystemPromptData where
  skillsDescription : String
  recentLearnings : List String
  positionsSummary : List (String × ℚ × ℚ)
  totalTrades : Nat
  winRate : ℚ
  totalPnl : ℚ
  autoTradeEnabled : Bool
  maxMarketCap : ℚ
  maxBuyAmount : ℚ
  userName : String
  interactionCount : Nat
  preferences : List String
deriving DecidableEq

/-- brain.ts buildSystemPrompt (lines 51-99): recent learnings are
`mem.learnings.slice(-10)`; open positions are the trades with status "open",
each contributing symbol, amount and price; the remaining fields come from the
cached AgentMemory and the user profile. -/
def buildSystemPrompt (skillsDescription : String) (mem : AgentMemory)
    (user : UserProfile) : SystemPromptData :=
  { skillsDescription := skillsDescription
    recentLearnings := sliceLast 10 mem.learnings
    positionsSummary :=
      (mem.trades.filter (fun t => t.status == "open")).map
        (fun t => (t.symbol, t.amount, t.price))
    totalTrades := mem.totalTrades
    winRate := mem.winRate
    totalPnl := mem.totalPnl
    autoTradeEnabled := mem.settings.autoTradeEnabled
    maxMarketCap := mem.settings.maxMarketCap
    maxBuyAmount := mem.settings.maxBuyAmount
    userName := user.name
    interactionCount := user.interactionCount
    preferences := user.preferences }

/-- One tool call requested by the model (brain.ts lines 162-165). -/
structure ToolCall where
  id : String
  name : String
  arguments : String
deriving DecidableEq

/-- One model response: its text content (null modelled as none) and its
requested tool calls (absent modelled as the empty list). -/
structure ModelChoice where
  content : Option String
  tool_calls : List ToolCall
deriving DecidableEq

/-- The external model's behaviour for one processMessage exchange: the first
chat completion, the second chat completion (consulted only when tools were
requested), and the outcome of the reflection completion (Except.error models
a thrown/failed call; Except.ok carries the content after `|| ""`). -/
structure BrainEnv where
  first : ModelChoice
  second : ModelChoice
  reflection : Except Unit String

/-- brain.ts lines 249-251: after a push, if more than 100 learnings remain,
keep only the most recent 100 (`slice(-100)`). -/
def cap100 (l : List String) : List String :=
  if l.length > 100 then sliceLast 100 l else l

/-- brain.ts reflect (lines 228-257): skip short messages, ask the model for a
one-sentence takeaway, and unless it answered "nothing" (or nearly nothing)
append one dated learning, capped at the most recent 100; any thrown error is
swallowed and leaves the learnings unchanged. The response argument is part of
the reflection prompt sent to the model and does not otherwise influence the
result. -/
def reflect (outcome : Except Unit String) (userMessage response : String)
    (learnings : List String) (today : String) : List String :=
  if userMessage.length < 10 then learnings
  else
    match outcome with
    | Except.error _ => learnings
    | Except.ok reflection =>
      if reflection.toLower ≠ "nothing" ∧ reflection.length > 5 then
        cap100 (learnings ++ ["[" ++ today ++ "] " ++ reflection])
      else learnings

/-- brain.ts lines 162-191: execute one requested tool call against the
registry; a successful execution yields its result string, a throw yields
"Error: <message>", and an unregistered skill name yields
"Unknown skill: <name>" — in every case a (tool_call_id, content) message. -/
def runToolCall (reg : SkillRegistry) (tc : ToolCall) : String × String :=
  match regGet reg tc.name with
  | some skill =>
    match skill.execute tc.arguments with
    | Except.ok r => (tc.id, r)
    | Except.error e => (tc.id, "Error: " ++ e)
  | none => (tc.id, "Unknown skill: " ++ tc.name)

/-- The observable outcome of one brain.ts processMessage call: the reply
returned to the chat layer, the updated user profile (with its conversation
history), the system prompt data given to the model, the tool-response
messages produced, whether the second model call was made, and the learnings
list after the reflection step. -/
structure ProcessResult where
  reply : String
  user : UserProfile
  systemPrompt : SystemPromptData
  toolMessages : List (String × String)
  secondCallMade : Bool
  learnings : List String

/-- brain.ts processMessage (lines 102-225): update the profile, append the
user message, truncate to the most recent 40 when the history exceeds 40,
build the system prompt from the cached AgentMemory, make the first model
call; with no tool calls the first content is the reply, otherwise every tool
call is executed and the second call's content ("Done!" when null) is the
reply; append the assistant reply to the history (without re-truncating) and
run the non-blocking reflection whose failures are swallowed. -/
def processMessage (reg : SkillRegistry) (env : BrainEnv) (mem : AgentMemory)
    (user : UserProfile) (userName message : String) (now : Nat)
    (today : String) : ProcessResult :=
  let u1 : UserProfile :=
    { user with
      lastSeen := now
      interactionCount := user.interactionCount + 1
      name := userName }
  let h1 := u1.conversationHistory ++
    [{ role := "user", content := message, timestamp := now }]
  let h2 := if h1.length > 40 then sliceLast 40 h1 else h1
  let sys := buildSystemPrompt (describeSkills reg) mem u1
  let choice := env.first
  let result : String × List (String × String) × Bool :=
    if choice.tool_calls.isEmpty then
      (choice.content.getD "", [], false)
    else
      (env.second.content.getD "Done!", choice.tool_calls.map (runToolCall reg), true)
  let h3 := h2 ++ [{ role := "assistant", content := result.1, timestamp := now }]
  { reply := result.1
    user := { u1 with conversationHistory := h3 }
    systemPrompt := sys
    toolMessages := result.2.1
    secondCallMade := result.2.2
    learnings := reflect env.reflection message result.1 mem.learnings today }

/-- Modelled from the spec: memory.ts is not in the source snapshot;
`load() -> Ledger` reads the persisted ledger document whole (never throws).
The persistent store is modelled as the document itself. -/
def loadMemory (store : AgentMemory) : AgentMemory := store

/-- The AgentBrain state that matters to the claims: its cached AgentMemory
(brain.ts line 34). -/
structure Brain where
  agentMemory : AgentMemory

/-- brain.ts constructor (lines 38-48): the AgentMemory is loaded once, when
the brain is constructed. -/
def mkBrain (store : AgentMemory) : Brain :=
  { agentMemory := loadMemory store }

/-- brain.ts reloadMemory (lines 260-262): replace the cached AgentMemory with
a fresh load from the store. -/
def reloadMemory (b : Brain) (store : AgentMemory) : Brain :=
  { b with agentMemory := loadMemory store }

/-- Scenario for the freshness claim: the brain is constructed while the store
holds store0; the store is then mutated to store1 (e.g. the autonomous trader
persists a trade); the next processMessage builds its system prompt from the
brain's cached agentMemory — store1 does not appear in the result because
brain.ts never re-reads the store inside processMessage. -/
def secondRequestPrompt (reg : SkillRegistry) (env : BrainEnv)
    (store0 store1 : AgentMemory) (user : UserProfile)
    (userName message : String) (now : Nat) (today : String) : SystemPromptData :=
  (processMessage reg env (mkBrain store0).agentMemory user userName message
    now today).systemPrompt

/-- One chat turn for the history-bound claims: run processMessage on a user
profile holding history h and keep the resulting history. -/
def chatStep (reg : SkillRegistry) (env : BrainEnv) (mem : AgentMemory)
    (h : List ConversationMessage) : List ConversationMessage :=
  (processMessage reg env mem
    { chatId := "1", name := "u", preferences := [], conversationHistory := h,
      lastSeen := 0, interactionCount := 0 }
    "u" "0123456789" 0 "2026-01-01").user.conversationHistory

/-- The history of a chat after n successive processMessage calls starting
from an empty conversation. -/
def chatN (reg : SkillRegistry) (env : BrainEnv) (mem : AgentMemory) :
    Nat → List ConversationMessage
  | 0 => []
  | n + 1 => chatStep reg env mem (chatN reg env mem n)

/-- A buy candidate produced by the market scanner (spec §4.3). -/
structure Candidate where
  symbol : String
  amount : ℚ
  price : ℚ
  reason : String
deriving DecidableEq

/-- Number of open trades carrying a given symbol. -/
def countOpenSym (trades : List Trade) (sym : String) : Nat :=
  trades.countP (fun u => u.status == "open" && u.symbol == sym)

/-- Whether some open trade already carries the symbol. -/
def hasOpenSymbol (trades : List Trade) (sym : String) : Bool :=
  trades.any (fun t => t.status == "open" && t.symbol == sym)

/-- Number of open trades. -/
def countOpen (trades : List Trade) : Nat :=
  trades.countP (fun t => t.status == "open")

/-- The rejection / failure outcomes of openPosition (spec §4.2). -/
inductive OpenOutcome
  | opened
  | maxPositions
  | amountTooLarge
  | duplicateSymbol
  | executionFailed
deriving DecidableEq

/-- Modelled from the spec: autonomous.ts (the Position Manager) is not in the
source snapshot. `openPosition(candidate, settings) -> Trade | Error` rejects
if count(open) >= maxOpenPositions, if the amount exceeds maxBuyAmount, or if
an open position already exists for the symbol; otherwise it submits the buy
through the execution collaborator (outcome collabOk) and records status
"open" on success or status "failed" on collaborator failure, with no
automatic retry. -/
def openPosition (l : AgentMemory) (c : Candidate) (now : Nat)
    (collabOk : Bool) : AgentMemory × OpenOutcome :=
  if countOpen l.trades ≥ l.settings.maxOpenPositions then
    (l, OpenOutcome.maxPositions)
  else if c.amount > l.settings.maxBuyAmount then
    (l, OpenOutcome.amountTooLarge)
  else if hasOpenSymbol l.trades c.symbol then
    (l, OpenOutcome.duplicateSymbol)
  else if collabOk then
    ({ l with trades := l.trades ++
        [{ symbol := c.symbol, action := "buy", amount := c.amount,
           price := c.price, reason := c.reason, status := "open",
           pnl := none, timestamp := now }] }, OpenOutcome.opened)
  else
    ({ l with trades := l.trades ++
        [{ symbol := c.symbol, action := "buy", amount := c.amount,
           price := c.price, reason := c.reason, status := "failed",
           pnl := none, timestamp := now }] }, OpenOutcome.executionFailed)

/-- A sequence of openPosition attempts (e.g. the buy candidates of one or two
scans, each paired with its execution-collaborator outcome), applied in
order. -/
def runOpens (l : AgentMemory) (cands : List (Candidate × Bool)) (now : Nat) :
    AgentMemory :=
  cands.foldl (fun acc cb => (openPosition acc cb.1 now cb.2).1) l

/-- Spec §3 invariant: at most one status "open" trade exists per symbol. -/
def OpenPerSymbolUnique (trades : List Trade) : Prop :=
  ∀ t ∈ trades, t.status = "open" → countOpenSym trades t.symbol ≤ 1

/-- Modelled from the spec: unrealized gain of a position in percent, signed
per the buy/sell direction (§4.2 closePosition's pnl formula applied at the
current price). -/
def unrealizedGainPct (action : String) (entry current : ℚ) : ℚ :=
  if action == "sell" then (entry - current) / entry * 100
  else (current - entry) / entry * 100

/-- The decision of evaluatePosition (spec §4.2). -/
inductive Decision
  | hold
  | close
  | stop
deriving DecidableEq

/-- Modelled from the spec: autonomous.ts is not in the source snapshot.
`evaluatePosition(trade, currentPrice) -> {hold, close, stop}`: close when the
unrealized gain reaches takeProfitPct, stop when the unrealized loss reaches
stopLossPct, otherwise hold; the stop-loss check comes first because the spec
fixes the tie-break to "stop takes precedence". -/
def evaluatePosition (t : Trade) (s : Settings) (currentPrice : ℚ) : Decision :=
  let g := unrealizedGainPct t.action t.price currentPrice
  if -g ≥ s.stopLossPct then Decision.stop
  else if g ≥ s.takeProfitPct then Decision.close
  else Decision.hold

/-- The value an AgentKit action resolves with (index.ts line 316): a plain
string is passed through; any other value is JSON.stringify-ed, abstracted
here as the object's JSON text. -/
inductive ActionValue
  | str (s : String)
  | obj (json : String)
deriving DecidableEq

/-- index.ts line 316: `typeof result === "string" ? result :
JSON.stringify(result, null, 2)`. -/
def renderActionResult : ActionValue → String
  | ActionValue.str s => s
  | ActionValue.obj j => j

/-- The outcome of the single action.invoke call raced against the 30s timer
(index.ts lines 308-315): it either resolves with a value — before or after
the 30000 ms timer fires — or rejects with an error message. -/
inductive InvokeOutcome
  | resolves (v : ActionValue) (within30s : Bool)
  | throws (msg : String)
deriving DecidableEq

/-- The AgentKit environment executeAction runs against: the registered action
names and the behaviour of the one invoke call. -/
structure ActionsEnv where
  actionNames : List String
  invoke : InvokeOutcome

/-- index.ts executeAction (lines 299-320): unknown action names resolve to a
"not found" string; the found action is invoked exactly once, raced against a
30-second timeout whose firing (or any rejection) is caught and turned into an
"Error: ..." string. The second component counts how many times action.invoke
ran (the no-automatic-retry instrumentation). -/
def executeAction (env : ActionsEnv) (actionName : String) : String × Nat :=
  if env.actionNames.contains actionName then
    match env.invoke with
    | InvokeOutcome.resolves v true => (renderActionResult v, 1)
    | InvokeOutcome.resolves _ false => ("Error: Action timeout (30s)", 1)
    | InvokeOutcome.throws msg => ("Error: " ++ msg, 1)
  else (s!"Action \"{actionName}\" not found.", 0)

/-- The outcome of one status poll (index.ts lines 602-628): a non-ok HTTP
response (skipped with continue), a thrown fetch error (escapes to the outer
catch), or a JSON body with a status and optional response / error fields. -/
inductive PollOutcome
  | notOk
  | throws (msg : String)
  | result (status : String) (response : Option String) (err : Option String)

/-- The outcome of the prompt submission (index.ts lines 576-596). -/
inductive SubmitOutcome
  | throws (msg : String)
  | notOk (code : Nat) (text : String)
  | ok (jobId : Option String) (threadId : Option String)

/-- The Bankr collaborator's behaviour for one bankrPrompt call: whether the
API key is configured, the submission outcome, and the i-th poll's outcome. -/
structure BankrEnv where
  apiKeyConfigured : Bool
  submit : SubmitOutcome
  polls : Nat → PollOutcome

/-- index.ts BankrJobResult (lines 557-564). -/
structure BankrJobResult where
  success : Bool
  jobId : String
  threadId : Option String
  status : String
  response : Option String
  error : Option String
deriving DecidableEq

/-- Whether a poll outcome keeps the polling loop going (a non-ok response or
a status other than completed / failed / cancelled). -/
def nonTerminal : PollOutcome → Bool
  | PollOutcome.notOk => true
  | PollOutcome.throws _ => false
  | PollOutcome.result st _ _ =>
    !(st == "completed" || st == "failed" || st == "cancelled")

/-- index.ts lines 599-631: the polling loop, at most `fuel` (source: 60)
iterations each preceded by a 2000 ms sleep; a completed status returns
success, failed / cancelled return an error result, a thrown poll escapes to
the outer catch (success false, status "failed"), anything else continues;
exhausting the loop yields the "timeout" result. The second component counts
the polls performed. -/
def bankrPollFrom (polls : Nat → PollOutcome) (jobId : String)
    (tid : Option String) (i : Nat) : Nat → BankrJobResult × Nat
  | 0 =>
    ({ success := false, jobId := jobId, threadId := tid, status := "timeout",
       response := none,
       error := some "Bankr took too long to respond. Try again!" }, 0)
  | fuel + 1 =>
    match polls i with
    | PollOutcome.notOk =>
      let r := bankrPollFrom polls jobId tid (i + 1) fuel
      (r.1, r.2 + 1)
    | PollOutcome.throws msg =>
      ({ success := false, jobId := "", threadId := none, status := "failed",
         response := none, error := some msg }, 1)
    | PollOutcome.result st resp perr =>
      if st == "completed" then
        ({ success := true, jobId := jobId, threadId := tid,
           status := "completed", response := some (resp.getD "No response"),
           error := none }, 1)
      else if st == "failed" || st == "cancelled" then
        ({ success := false, jobId := jobId, threadId := tid, status := st,
           response := none, error := some ((resp <|> perr).getD "Job failed") },
         1)
      else
        let r := bankrPollFrom polls jobId tid (i + 1) fuel
        (r.1, r.2 + 1)

/-- index.ts bankrPrompt (lines 566-635): a missing API key, a submission
throw, a non-ok submission, or a missing job id each yield a failed result
without polling; otherwise the job is submitted once and polled up to 60
times. The second component counts the polls performed. -/
def bankrPrompt (env : BankrEnv) : BankrJobResult × Nat :=
  if !env.apiKeyConfigured then
    ({ success := false, jobId := "", threadId := none, status := "failed",
       response := none,
       error := some "Bankr API key not configured. Add BANKR_API_KEY to env vars." },
     0)
  else
    match env.submit with
    | SubmitOutcome.throws msg =>
      ({ success := false, jobId := "", threadId := none, status := "failed",
         response := none, error := some msg }, 0)
    | SubmitOutcome.notOk code text =>
      ({ success := false, jobId := "", threadId := none, status := "failed",
         response := none, error := some s!"Bankr API error: {code} {text}" }, 0)
    | SubmitOutcome.ok none _ =>
      ({ success := false, jobId := "", threadId := none, status := "failed",
         response := none, error := some "No job ID returned from Bankr" }, 0)
    | SubmitOutcome.ok (some jobId) tid =>
      bankrPollFrom env.polls jobId tid 0 60

/-- The parameters of the update_trading_settings skill (register-skills,
part_000 lines 491-513); absent parameters are none. Numbers are rationals
(JS NaN, also falsy there, is not representable and not modelled). -/
structure UpdateSettingsParams where
  max_market_cap : Option ℚ
  buy_amount : Option String
  take_profit_pct : Option ℚ
  stop_loss_pct : Option ℚ
  scan_interval_min : Option ℚ
  max_open_positions : Option ℚ
deriving DecidableEq

/-- The updates object handed to trader.updateSettings; a none field is one
the skill did not forward. -/
structure SettingsUpdates where
  maxMarketCap : Option ℚ
  maxBuyAmount : Option String
  takeProfitPct : Option ℚ
  stopLossPct : Option ℚ
  scanIntervalMin : Option ℚ
  maxOpenPositions : Option ℚ
deriving DecidableEq

/-- JS truthiness test `if (params.x) ...` on a number: 0 is falsy, so a
supplied 0 is dropped. -/
def numTruthy (v : Option ℚ) : Option ℚ :=
  match v with
  | some q => if q = 0 then none else some q
  | none => none

/-- JS truthiness test on a string: "" is falsy. -/
def strTruthy (v : Option String) : Option String :=
  match v with
  | some s => if s = "" then none else some s
  | none => none

/-- register-skills update_trading_settings.execute (part_000 lines 503-512):
each parameter is copied into the updates object only when its value is
truthy, then the updates are passed to trader.updateSettings. -/
def update_trading_settings (p : UpdateSettingsParams) : SettingsUpdates :=
  { maxMarketCap := numTruthy p.max_market_cap
    maxBuyAmount := strTruthy p.buy_amount
    takeProfitPct := numTruthy p.take_profit_pct
    stopLossPct := numTruthy p.stop_loss_pct
    scanIntervalMin := numTruthy p.scan_interval_min
    maxOpenPositions := numTruthy p.max_open_positions }

/-- Default trading settings used as a concrete fixture. -/
def settings0 : Settings :=
  { maxMarketCap := 40000, maxBuyAmount := 5, takeProfitPct := 100,
    stopLossPct := 30, scanIntervalMin := 10, maxOpenPositions := 5,
    autoTradeEnabled := false }

/-- An empty ledger document fixture. -/
def mem0 : AgentMemory :=
  { trades := [], settings := settings0, learnings := [], totalTrades := 0,
    winRate := 0, totalPnl := 0 }

/-- The ledger document after another component recorded one trade. -/
def mem1 : AgentMemory := { mem0 with totalTrades := 1 }

/-- A fresh user profile fixture. -/
def user0 : UserProfile :=
  { chatId := "1", name := "u", preferences := [], conversationHistory := [],
    lastSeen := 0, interactionCount := 0 }

/-- An empty skill registry fixture. -/
def reg0 : SkillRegistry := []

/-- A model environment whose first response carries text and no tool calls. -/
def envNoTools : BrainEnv :=
  { first := { content := some "hello!", tool_calls := [] },
    second := { content := none, tool_calls := [] },
    reflection := Except.error () }

/-- A tool call naming a skill absent from the registry. -/
def tcUnknown : ToolCall :=
  { id := "call_1", name := "mystery_skill", arguments := "" }

/-- A model environment whose first response requests one unknown skill. -/
def envUnknownTool : BrainEnv :=
  { first := { content := none, tool_calls := [tcUnknown] },
    second := { content := some "recovered", tool_calls := [] },
    reflection := Except.error () }

/-- An open PEPE position fixture (entry price 100). -/
def tradePepe : Trade :=
  { symbol := "PEPE", action := "buy", amount := 5, price := 100,
    reason := "scan", status := "open", pnl := none, timestamp := 0 }

/-- Settings whose two thresholds can both hold at one price (the take-profit
threshold is negative), exercising the tie-break. -/
def settingsTie : Settings :=
  { settings0 with takeProfitPct := -50, stopLossPct := 30 }

/-- A buy candidate fixture. -/
def cand0 : Candidate :=
  { symbol := "PEPE", amount := 5, price := 1, reason := "momentum" }

/-- An actions environment whose one action resolves only after the 30s timer. -/
def actEnvTimeout : ActionsEnv :=
  { actionNames := ["WalletActionProvider_get_wallet_details"],
    invoke := InvokeOutcome.resolves (ActionValue.str "0xabc") false }

/-- An actions environment whose one action rejects. -/
def actEnvThrows : ActionsEnv :=
  { actionNames := ["CdpSmartWalletActionProvider_swap"],
    invoke := InvokeOutcome.throws "insufficient funds" }

/-- A Bankr environment whose polls never reach a terminal status. -/
def benvPending : BankrEnv :=
  { apiKeyConfigured := true,
    submit := SubmitOutcome.ok (some "job1") none,
    polls := fun _ => PollOutcome.notOk }

/-- A Bankr environment whose first poll reports completion. -/
def benvDone : BankrEnv :=
  { apiKeyConfigured := true,
    submit := SubmitOutcome.ok (some "job2") none,
    polls := fun _ => PollOutcome.result "completed" (some "All good") none }

/-- update_trading_settings parameters that are all supplied but falsy. -/
def pFalsy : UpdateSettingsParams :=
  { max_market_cap := some 0, buy_amount := some "",
    take_profit_pct := some 0, stop_loss_pct := some 0,
    scan_interval_min := some 0, max_open_positions := some 0 }

theorem cap100_append_length (ls : List String) (e : String) :
    (cap100 (ls ++ [e])).length ≤ max ls.length 100 := by
  unfold cap100 sliceLast
  split
  · simp only [List.length_drop, List.length_append, List.length_singleton]
    omega
  · simp only [List.length_append, List.length_singleton] at *
    omega

theorem reflect_cases (outcome : Except Unit String) (msg resp today : String)
    (ls : List String) :
    reflect outcome msg resp ls today = ls ∨
      ∃ e, reflect outcome msg resp ls today = cap100 (ls ++ [e]) := by
  unfold reflect
  split
  · exact Or.inl rfl
  · match outcome with
    | Except.error _ => exact Or.inl rfl
    | Except.ok r =>
      simp only []
      split
      · exact Or.inr ⟨_, rfl⟩
      · exact Or.inl rfl

/-- C5: when the first model response requests zero tool calls, its content is
returned directly as the reply, with no tool execution and no second model
call. -/
theorem processMessage_no_tools_direct_reply (reg : SkillRegistry)
    (env : BrainEnv) (mem : AgentMemory) (user : UserProfile)
    (userName message : String) (now : Nat) (today : String)
    (h : env.first.tool_calls = []) :
    (processMessage reg env mem user userName message now today).reply =
        env.first.content.getD "" ∧
    (processMessage reg env mem user userName message now today).toolMessages = [] ∧
    (processMessage reg env mem user userName message now today).secondCallMade = false := by
  simp [processMessage, h]

theorem processMessage_no_tools_direct_reply_witness :
    (processMessage reg0 envNoTools mem0 user0 "u" "hello there" 0
        "2026-01-01").reply = envNoTools.first.content.getD "" :=
  (processMessage_no_tools_direct_reply reg0 envNoTools mem0 user0 "u"
    "hello there" 0 "2026-01-01" rfl).1

/-- C6: a requested tool call whose skill name is not in the registry gets the
textual error "Unknown skill: <name>" injected into its tool-response slot,
processing continues to the second model call, and the second call's content
becomes the reply (processMessage is a total function of its environment —
the unknown name never raises). -/
theorem processMessage_unknown_skill_recovers (reg : SkillRegistry)
    (env : BrainEnv) (mem : AgentMemory) (user : UserProfile)
    (userName message : String) (now : Nat) (today : String) (tc : ToolCall)
    (hmem : tc ∈ env.first.tool_calls) (hun : regGet reg tc.name = none) :
    (tc.id, "Unknown skill: " ++ tc.name) ∈
        (processMessage reg env mem user userName message now today).toolMessages ∧
    (processMessage reg env mem user userName message now today).secondCallMade = true ∧
    (processMessage reg env mem user userName message now today).reply =
        env.second.content.getD "Done!" := by
  have hne : env.first.tool_calls.isEmpty = false := by
    cases h' : env.first.tool_calls with
    | nil => rw [h'] at hmem; cases hmem
    | cons a l => simp
  refine ⟨?_, ?_, ?_⟩
  · simp only [processMessage, hne, Bool.false_eq_true, if_false, List.mem_map]
    exact ⟨tc, hmem, by simp [runToolCall, hun]⟩
  · simp [processMessage, hne]
  · simp [processMessage, hne]

theorem processMessage_unknown_skill_recovers_witness :
    (tcUnknown.id, "Unknown skill: " ++ tcUnknown.name) ∈
      (processMessage reg0 envUnknownTool mem0 user0 "u" "hello there" 0
        "2026-01-01").toolMessages :=
  (processMessage_unknown_skill_recovers reg0 envUnknownTool mem0 user0 "u"
    "hello there" 0 "2026-01-01" tcUnknown (List.mem_cons_self tcUnknown [])
    rfl).1

/-- C7: the reflection step either leaves the learnings unchanged or appends
exactly one entry capped at the most recent 100, the learnings never grow past
max(previous length, 100), and the reply returned by processMessage is the
same for any two environments that agree on the two chat completions — the
reflection outcome (including a swallowed failure) never alters it. -/
theorem reflect_bounded_and_isolated :
    ∀ (outcome : Except Unit String) (msg resp today : String) (ls : List String),
      (reflect outcome msg resp ls today = ls ∨
        ∃ e, reflect outcome msg resp ls today = cap100 (ls ++ [e])) ∧
      (reflect outcome msg resp ls today).length ≤ max ls.length 100 ∧
      (∀ (reg : SkillRegistry) (env env' : BrainEnv) (mem : AgentMemory)
          (user : UserProfile) (userName message : String) (now : Nat)
          (td : String),
        env'.first = env.first → env'.second = env.second →
        (processMessage reg env' mem user userName message now td).reply =
          (processMessage reg env mem user userName message now td).reply) := by
  intro outcome msg resp today ls
  refine ⟨reflect_cases outcome msg resp today ls, ?_, ?_⟩
  · rcases reflect_cases outcome msg resp today ls with h | ⟨e, h⟩
    · rw [h]; exact Nat.le_max_left _ _
    · rw [h]; exact cap100_append_length ls e
  · intro reg env env' mem user userName message now td h1 h2
    simp [processMessage, h1, h2]

theorem reflect_bounded_and_isolated_witness :
    (reflect (Except.ok "user prefers low caps") "find me gems please" "ok"
        [] "2026-01-01" = [] ∨
      ∃ e, reflect (Except.ok "user prefers low caps") "find me gems please"
        "ok" [] "2026-01-01" = cap100 ([] ++ [e])) ∧
    (processMessage reg0 { envNoTools with reflection := Except.ok "noted" }
        mem0 user0 "u" "hello there" 0 "2026-01-01").reply =
      (processMessage reg0 envNoTools mem0 user0 "u" "hello there" 0
        "2026-01-01").reply :=
  ⟨(reflect_bounded_and_isolated (Except.ok "user prefers low caps")
      "find me gems please" "ok" "2026-01-01" []).1,
    (reflect_bounded_and_isolated (Except.ok "user prefers low caps")
      "find me gems please" "ok" "2026-01-01" []).2.2 reg0 envNoTools
      { envNoTools with reflection := Except.ok "noted" } mem0 user0 "u"
      "hello there" 0 "2026-01-01" rfl rfl⟩

/-- C3 counterexample: the brain is constructed while the ledger store holds
mem0 (zero total trades); the store is then mutated to mem1 (one total trade);
the system context of the next processMessage still reports the
construction-time total, not the live store's — the context is computed from
Ledger state cached at an earlier time, contradicting the claim. -/
theorem brain_context_not_live_counterexample :
    (secondRequestPrompt reg0 envNoTools mem0 mem1 user0 "u" "hello there" 0
        "2026-01-01").totalTrades ≠
      (processMessage reg0 envNoTools (loadMemory mem1) user0 "u"
        "hello there" 0 "2026-01-01").systemPrompt.totalTrades := by
  decide

/-- C3 (amended): the system context is rebuilt on every processMessage call,
but from the Brain's AgentMemory loaded once at construction; mutating the
persistent store between two requests leaves the second request's context
unchanged (first conjunct: the context does not depend on the later store
value), the context is exactly the one built from the construction-time load
(second conjunct), and only an explicit reloadMemory makes a later store value
visible (third conjunct). -/
theorem brain_context_from_construction_snapshot :
    ∀ (reg : SkillRegistry) (env : BrainEnv)
      (store0 store1 store1' : AgentMemory) (user : UserProfile)
      (userName message : String) (now : Nat) (today : String),
      secondRequestPrompt reg env store0 store1 user userName message now today =
        secondRequestPrompt reg env store0 store1' user userName message now today ∧
      secondRequestPrompt reg env store0 store1 user userName message now today =
        (processMessage reg env (mkBrain store0).agentMemory user userName
          message now today).systemPrompt ∧
      (processMessage reg env
          (reloadMemory (mkBrain store0) store1).agentMemory user userName
          message now today).systemPrompt =
        (processMessage reg env (loadMemory store1) user userName message now
          today).systemPrompt := by
  intro reg env store0 store1 store1' user userName message now today
  exact ⟨rfl, rfl, rfl⟩

/-- C4 counterexample: starting from an empty conversation, after the 21st
processMessage call the per-chat history holds 41 messages, not at most 40 —
the truncation to 40 runs after the user message is appended but the assistant
reply is then appended without re-truncating. -/
theorem history_cap_counterexample :
    ¬ (chatN reg0 envNoTools mem0 21).length ≤ 40 := by
  decide

/-- C4 (amended): after each processMessage call the per-chat history holds at
most 41 messages (truncation to the 40 most recent happens after the user
message is appended; the assistant reply is then appended without
re-truncating), and the retained messages are exactly the most recent ones —
a suffix of the old history plus the new user message, followed by the reply —
with nothing summarized. -/
theorem history_bounded_and_most_recent :
    ∀ (reg : SkillRegistry) (env : BrainEnv) (mem : AgentMemory)
      (user : UserProfile) (userName message : String) (now : Nat)
      (today : String),
      ((processMessage reg env mem user userName message now
          today).user.conversationHistory).length ≤ 41 ∧
      ∃ k, (processMessage reg env mem user userName message now
          today).user.conversationHistory =
        (user.conversationHistory ++
            [({ role := "user", content := message, timestamp := now } :
              ConversationMessage)]).drop k ++
          [({ role := "assistant",
              content := (processMessage reg env mem user userName message now
                today).reply,
              timestamp := now } : ConversationMessage)] := by
  intro reg env mem user userName message now today
  constructor
  · simp only [processMessage, sliceLast]
    split <;> simp_all <;> omega
  · simp only [processMessage, sliceLast]
    split
    · exact ⟨(user.conversationHistory.length + 1) - 40, by simp⟩
    · exact ⟨0, by simp⟩

theorem countOpenSym_append (ts : List Trade) (u : Trade) (sym : String) :
    countOpenSym (ts ++ [u]) sym =
      countOpenSym ts sym +
        (if u.status == "open" && u.symbol == sym then 1 else 0) := by
  simp [countOpenSym, List.countP_append, List.countP_cons]

theorem hasOpenSymbol_false_count (ts : List Trade) (sym : String)
    (h : hasOpenSymbol ts sym = false) : countOpenSym ts sym = 0 := by
  unfold hasOpenSymbol at h
  unfold countOpenSym
  rw [List.countP_eq_zero]
  intro t ht
  rw [List.any_eq_false] at h
  exact fun hb => h t ht hb

theorem openPosition_preserves_unique (l : AgentMemory) (c : Candidate)
    (now : Nat) (ok : Bool) (h : OpenPerSymbolUnique l.trades) :
    OpenPerSymbolUnique (openPosition l c now ok).1.trades := by
  unfold openPosition
  split
  · exact h
  split
  · exact h
  split
  · exact h
  next hdup =>
    have hdupf : hasOpenSymbol l.trades c.symbol = false := by
      simpa using hdup
    split
    · -- collaborator success: an open trade for c.symbol is appended
      intro t ht hopen
      simp only at ht
      rcases List.mem_append.mp ht with hin | hnew
      · -- an old trade: the appended trade counts only if its symbol matches,
        -- which would contradict hasOpenSymbol being false
        rw [countOpenSym_append]
        by_cases hsym : c.symbol = t.symbol
        · exfalso
          have : hasOpenSymbol l.trades c.symbol = true := by
            unfold hasOpenSymbol
            rw [List.any_eq_true]
            exact ⟨t, hin, by simp [hopen, hsym]⟩
          rw [this] at hdupf
          cases hdupf
        · have hbeq : (c.symbol == t.symbol) = false :=
            beq_eq_false_iff_ne.mpr hsym
          simpa [hbeq] using h t hin hopen
      · -- the new trade itself: no old open trade carries its symbol
        rw [List.mem_singleton] at hnew
        subst hnew
        rw [countOpenSym_append]
        simp only []
        rw [hasOpenSymbol_false_count l.trades c.symbol hdupf]
        simp
    · -- collaborator failure: a "failed" trade is appended, no open count moves
      intro t ht hopen
      simp only at ht
      rcases List.mem_append.mp ht with hin | hnew
      · rw [countOpenSym_append]
        simpa using h t hin hopen
      · rw [List.mem_singleton] at hnew
        subst hnew
        simp at hopen

/-- C1: starting from a ledger in which at most one open trade exists per
symbol, any sequence of openPosition attempts — e.g. the candidates of two
scans run in quick succession — preserves that invariant; moreover whenever a
symbol already has an open position, openPosition leaves the ledger unchanged
and reports a rejection (duplicate symbol, unless an earlier guard already
rejected). -/
theorem openPosition_unique_per_symbol :
    ∀ (l : AgentMemory) (cands : List (Candidate × Bool)) (now : Nat),
      OpenPerSymbolUnique l.trades →
      OpenPerSymbolUnique (runOpens l cands now).trades ∧
      ∀ (c : Candidate) (ok : Bool), hasOpenSymbol l.trades c.symbol = true →
        openPosition l c now ok = (l, OpenOutcome.duplicateSymbol) ∨
        openPosition l c now ok = (l, OpenOutcome.maxPositions) ∨
        openPosition l c now ok = (l, OpenOutcome.amountTooLarge) := by
  intro l cands now h
  constructor
  · induction cands generalizing l with
    | nil => exact h
    | cons cb rest ih =>
      have hstep := openPosition_preserves_unique l cb.1 now cb.2 h
      simpa [runOpens] using ih (openPosition l cb.1 now cb.2).1 hstep
  · intro c ok hdup
    unfold openPosition
    split
    · exact Or.inr (Or.inl rfl)
    split
    · exact Or.inr (Or.inr rfl)
    simp [hdup]

theorem openPosition_unique_per_symbol_witness :
    OpenPerSymbolUnique
      (runOpens mem0 [(cand0, true), (cand0, true)] 0).trades :=
  (openPosition_unique_per_symbol mem0 [(cand0, true), (cand0, true)] 0
    (by intro t ht hopen; simp [mem0] at ht)).1

/-- C2: whenever the take-profit threshold (unrealized gain at least
takeProfitPct) and the stop-loss threshold (unrealized loss at least
stopLossPct) hold at the same current price, evaluatePosition decides stop,
not close — the stop-loss check takes precedence. -/
theorem evaluatePosition_stop_precedence (t : Trade) (s : Settings)
    (currentPrice : ℚ)
    (htp : unrealizedGainPct t.action t.price currentPrice ≥ s.takeProfitPct)
    (hsl : -(unrealizedGainPct t.action t.price currentPrice) ≥ s.stopLossPct) :
    evaluatePosition t s currentPrice = Decision.stop := by
  unfold evaluatePosition
  rw [if_pos hsl]

theorem evaluatePosition_stop_precedence_witness :
    unrealizedGainPct tradePepe.action tradePepe.price 60 ≥
        settingsTie.takeProfitPct ∧
    -(unrealizedGainPct tradePepe.action tradePepe.price 60) ≥
        settingsTie.stopLossPct ∧
    evaluatePosition tradePepe settingsTie 60 = Decision.stop := by
  have hbs : ("buy" : String) ≠ "sell" := by decide
  exact ⟨by norm_num [unrealizedGainPct, tradePepe, settingsTie, settings0, hbs],
    by norm_num [unrealizedGainPct, tradePepe, settingsTie, settings0, hbs],
    evaluatePosition_stop_precedence tradePepe settingsTie 60
      (by norm_num [unrealizedGainPct, tradePepe, settingsTie, settings0, hbs])
      (by norm_num [unrealizedGainPct, tradePepe, settingsTie, settings0, hbs])⟩

theorem bankrPollFrom_count_le (polls : Nat → PollOutcome) (jobId : String)
    (tid : Option String) :
    ∀ (fuel i : Nat), (bankrPollFrom polls jobId tid i fuel).2 ≤ fuel := by
  intro fuel
  induction fuel with
  | zero => intro i; simp [bankrPollFrom]
  | succ n ih =>
    intro i
    cases hp : polls i with
    | notOk =>
      simpa [bankrPollFrom, hp] using Nat.succ_le_succ (ih (i + 1))
    | throws msg => simp [bankrPollFrom, hp]
    | result st resp perr =>
      simp only [bankrPollFrom, hp]
      split
      · simp
      · split
        · simp
        · simpa using Nat.succ_le_succ (ih (i + 1))

theorem bankrPollFrom_timeout (polls : Nat → PollOutcome) (jobId : String)
    (tid : Option String) :
    ∀ (fuel i : Nat), (∀ k, k < fuel → nonTerminal (polls (i + k)) = true) →
      (bankrPollFrom polls jobId tid i fuel).1 =
        { success := false, jobId := jobId, threadId := tid,
          status := "timeout", response := none,
          error := some "Bankr took too long to respond. Try again!" } := by
  intro fuel
  induction fuel with
  | zero => intro i _; rfl
  | succ n ih =>
    intro i hall
    have h0 : nonTerminal (polls i) = true := by
      simpa using hall 0 (Nat.succ_pos n)
    have hrest : ∀ k, k < n → nonTerminal (polls (i + 1 + k)) = true := by
      intro k hk
      have := hall (k + 1) (by omega)
      simpa [show i + (k + 1) = i + 1 + k by omega] using this
    cases hp : polls i with
    | notOk =>
      simpa [bankrPollFrom, hp] using ih (i + 1) hrest
    | throws msg => rw [hp] at h0; simp [nonTerminal] at h0
    | result st resp perr =>
      rw [hp] at h0
      simp only [nonTerminal, Bool.not_eq_eq_eq_not, Bool.not_true,
        Bool.or_eq_false_iff] at h0
      obtain ⟨⟨h1, h2⟩, h3⟩ := h0
      simp only [bankrPollFrom, hp, h1, h2, h3, Bool.or_self,
        Bool.false_eq_true, if_false]
      simpa using ih (i + 1) hrest

theorem bankrPollFrom_classify (polls : Nat → PollOutcome) (jobId : String)
    (tid : Option String) :
    ∀ (fuel i : Nat),
      ((bankrPollFrom polls jobId tid i fuel).1.success = true →
        (bankrPollFrom polls jobId tid i fuel).1.status = "completed") ∧
      ((bankrPollFrom polls jobId tid i fuel).1.success = false →
        ((bankrPollFrom polls jobId tid i fuel).1.status = "failed" ∨
         (bankrPollFrom polls jobId tid i fuel).1.status = "cancelled" ∨
         (bankrPollFrom polls jobId tid i fuel).1.status = "timeout")) := by
  intro fuel
  induction fuel with
  | zero =>
    intro i
    refine ⟨?_, ?_⟩
    · intro h; simp [bankrPollFrom] at h
    · intro h; simp [bankrPollFrom]
  | succ n ih =>
    intro i
    cases hp : polls i with
    | notOk => simpa [bankrPollFrom, hp] using ih (i + 1)
    | throws msg => simp [bankrPollFrom, hp]
    | result st resp perr =>
      simp only [bankrPollFrom, hp]
      split
      next hc =>
        simp
      · split
        next hfc =>
          rcases Bool.or_eq_true_iff.mp hfc with h | h
          · simp [eq_of_beq h]
          · simp [eq_of_beq h]
        · simpa using ih (i + 1)

/-- C8: the single action.invoke call of executeAction is raced against the
hard 30-second timer: when the action has not resolved within the 30000 ms
bound the call yields the error string "Error: Action timeout (30s)" (treated
as failed, not retried — at most one invocation is ever consumed), and
bankrPrompt performs at most 60 polls of its 2000 ms cadence, hence at most
120000 ms of polling, returning the failed status "timeout" when the job
never reaches a terminal status within that bound. -/
theorem action_and_polling_timeouts :
    (∀ (env : ActionsEnv) (name : String) (v : ActionValue),
      env.actionNames.contains name = true →
      env.invoke = InvokeOutcome.resolves v false →
      (executeAction env name).1 = "Error: Action timeout (30s)") ∧
    (∀ (env : ActionsEnv) (name : String), (executeAction env name).2 ≤ 1) ∧
    (∀ benv : BankrEnv,
      (bankrPrompt benv).2 ≤ 60 ∧ (bankrPrompt benv).2 * 2000 ≤ 120000) ∧
    (∀ (benv : BankrEnv) (j : String) (t : Option String),
      benv.apiKeyConfigured = true →
      benv.submit = SubmitOutcome.ok (some j) t →
      (∀ i, i < 60 → nonTerminal (benv.polls i) = true) →
      (bankrPrompt benv).1.success = false ∧
        (bankrPrompt benv).1.status = "timeout") := by
  refine ⟨?_, ?_, ?_, ?_⟩
  · intro env name v hin hinv
    have hin' : name ∈ env.actionNames := by simpa using hin
    simp [executeAction, hin', hinv]
  · intro env name
    unfold executeAction
    split
    · cases hi : env.invoke with
      | resolves v w => cases w <;> simp [hi]
      | throws m => simp [hi]
    · simp
  · intro benv
    have hle : (bankrPrompt benv).2 ≤ 60 := by
      unfold bankrPrompt
      split
      · simp
      · cases benv.submit with
        | throws msg => simp
        | notOk code text => simp
        | ok jobId tid =>
          cases jobId with
          | none => simp
          | some j => simpa using bankrPollFrom_count_le benv.polls j tid 60 0
    exact ⟨hle, by omega⟩
  · intro benv j t hkey hsub hall
    have : (bankrPrompt benv).1 =
        { success := false, jobId := j, threadId := t, status := "timeout",
          response := none,
          error := some "Bankr took too long to respond. Try again!" } := by
      unfold bankrPrompt
      rw [hkey, hsub]
      simpa using bankrPollFrom_timeout benv.polls j t 60 0 (by simpa using hall)
    rw [this]
    exact ⟨rfl, rfl⟩

theorem action_and_polling_timeouts_witness :
    (executeAction actEnvTimeout
        "WalletActionProvider_get_wallet_details").1 =
      "Error: Action timeout (30s)" ∧
    (bankrPrompt benvPending).1.status = "timeout" :=
  ⟨action_and_polling_timeouts.1 actEnvTimeout
      "WalletActionProvider_get_wallet_details" (ActionValue.str "0xabc")
      rfl rfl,
    (action_and_polling_timeouts.2.2.2 benvPending "job1" none rfl rfl
      (fun i _ => rfl)).2⟩

/-- C9: executeAction and bankrPrompt are total functions of their
environments — every collaborator failure becomes a value, not an exception:
an unknown action name yields the "not found" string, a thrown invocation
yields "Error: <message>", a bankrPrompt result is successful exactly when its
status is "completed", and every unsuccessful result carries status "failed",
"cancelled" or "timeout". -/
theorem collaborator_errors_never_escape :
    (∀ (env : ActionsEnv) (name : String),
      env.actionNames.contains name = false →
      (executeAction env name).1 = s!"Action \"{name}\" not found.") ∧
    (∀ (env : ActionsEnv) (name msg : String),
      env.actionNames.contains name = true →
      env.invoke = InvokeOutcome.throws msg →
      (executeAction env name).1 = "Error: " ++ msg) ∧
    (∀ benv : BankrEnv,
      ((bankrPrompt benv).1.success = true →
        (bankrPrompt benv).1.status = "completed") ∧
      ((bankrPrompt benv).1.success = false →
        ((bankrPrompt benv).1.status = "failed" ∨
         (bankrPrompt benv).1.status = "cancelled" ∨
         (bankrPrompt benv).1.status = "timeout"))) := by
  refine ⟨?_, ?_, ?_⟩
  · intro env name hout
    have hout' : name ∉ env.actionNames := by simpa using hout
    simp [executeAction, hout']
  · intro env name msg hin hinv
    have hin' : name ∈ env.actionNames := by simpa using hin
    simp [executeAction, hin', hinv]
  · intro benv
    unfold bankrPrompt
    split
    · simp
    · cases benv.submit with
      | throws msg => simp
      | notOk code text => simp
      | ok jobId tid =>
        cases jobId with
        | none => simp
        | some j => simpa using bankrPollFrom_classify benv.polls j tid 60 0

theorem collaborator_errors_never_escape_witness :
    (executeAction actEnvThrows "PythActionProvider_fetch_price").1 =
      s!"Action \"PythActionProvider_fetch_price\" not found." ∧
    (bankrPrompt benvDone).1.status = "completed" :=
  ⟨collaborator_errors_never_escape.1 actEnvThrows
      "PythActionProvider_fetch_price" rfl,
    (collaborator_errors_never_escape.2.2 benvDone).1 rfl⟩

/-- C10: the update_trading_settings skill forwards a supplied parameter to
trader.updateSettings only when its value is truthy: a supplied 0 (or an
empty buy_amount string) is omitted from the updates, so a zero stop-loss,
take-profit, scan interval, position cap or market-cap filter can never be
applied through this skill, and a forwarded numeric value is exactly a
supplied non-zero one. -/
theorem update_trading_settings_drops_falsy :
    ∀ (p : UpdateSettingsParams) (q : ℚ),
      (p.stop_loss_pct = some 0 →
        (update_trading_settings p).stopLossPct = none) ∧
      (p.take_profit_pct = some 0 →
        (update_trading_settings p).takeProfitPct = none) ∧
      (p.scan_interval_min = some 0 →
        (update_trading_settings p).scanIntervalMin = none) ∧
      (p.max_open_positions = some 0 →
        (update_trading_settings p).maxOpenPositions = none) ∧
      (p.max_market_cap = some 0 →
        (update_trading_settings p).maxMarketCap = none) ∧
      (p.buy_amount = some "" →
        (update_trading_settings p).maxBuyAmount = none) ∧
      ((update_trading_settings p).stopLossPct = some q ↔
        p.stop_loss_pct = some q ∧ q ≠ 0) := by
  intro p q
  refine ⟨?_, ?_, ?_, ?_, ?_, ?_, ?_⟩
  · intro h; simp [update_trading_settings, numTruthy, h]
  · intro h; simp [update_trading_settings, numTruthy, h]
  · intro h; simp [update_trading_settings, numTruthy, h]
  · intro h; simp [update_trading_settings, numTruthy, h]
  · intro h; simp [update_trading_settings, numTruthy, h]
  · intro h; simp [update_trading_settings, strTruthy, h]
  · simp only [update_trading_settings]
    cases hp : p.stop_loss_pct with
    | none => simp [numTruthy]
    | some a =>
      show (if a = 0 then none else some a : Option ℚ) = some q ↔
        some a = some q ∧ q ≠ 0
      by_cases ha : a = 0
      · subst ha
        rw [if_pos rfl]
        constructor
        · intro h; cases h
        · rintro ⟨h1, h2⟩
          injection h1 with h1
          exact absurd h1.symm h2
      · rw [if_neg ha]
        simp only [Option.some.injEq]
        exact ⟨fun h => ⟨h, h ▸ ha⟩, fun h => h.1⟩

theorem update_trading_settings_drops_falsy_witness :
    (update_trading_settings pFalsy).stopLossPct = none ∧
    (update_trading_settings pFalsy).maxBuyAmount = none :=
  ⟨(update_trading_settings_drops_falsy pFalsy 0).1 rfl,
    (update_trading_settings_drops_falsy pFalsy 0).2.2.2.2.2.1 rfl⟩

end AIbingwa
